import Mathlib

/-!
  # Shallow embedding of the ty-backend-admin partial-mutation and query core

  The Rust source is a REST backend over Postgres (actix-web + sqlx). The
  parts embedded here are the ones the checked claims are about:

  * `src/utils/deserialization.rs` — the tri-state field wrappers
    `MaybeNull<T>` and `MaybeAbsent<T>` and their conversions;
  * `src/services/responses_dto.rs` — `Pagination::new`;
  * `src/services/service_error.rs` — the `ServiceError` taxonomy, its
    `Display` messages and HTTP rendering;
  * `src/models/{client,dealership,vehicle,employee}.rs` — the pure
    field-resolution part of `Update*::update` plus the `get_page`
    `LIMIT/OFFSET` queries, with the SQL statements modelled as functions
    of the table contents in the store's enumeration order;
  * `src/services/{clients,dealerships,staff}.rs` — the handler control
    flow: pagination-parameter validation, fetch-before-update, and the
    `map_err` classification of sqlx errors.

  Database state is a list of rows in the order the store enumerates them;
  a SQL statement becomes a function from that list (plus its bound
  parameters) to a result and a successor list. `fetch_one` on an empty
  result set is `sqlx::Error::RowNotFound`; constraint violations are
  `sqlx::Error::Database` values whose kind flags mirror
  `is_unique_violation` / `is_foreign_key_violation`.
-/

/-! ## JSON values and decoders (the serde side) -/

/-- A JSON value.  Objects keep their fields as an ordered association
list, which is what `serde_json`'s map visitor presents to a derived
struct deserializer. -/
inductive Json where
  | null
  | bool (b : Bool)
  | num (n : Int)
  | str (s : String)
  | arr (items : List Json)
  | obj (fields : List (String × Json))

/-- A deserializer for `α`: `serde`'s `T::deserialize` applied to one JSON
value, failing with a message on a shape mismatch. -/
def Decoder (α : Type) : Type := Json → Except String α

/-- Rust `String::deserialize` on a JSON value. -/
def strDecode : Decoder String := fun j =>
  match j with
  | .str s => .ok s
  | _ => .error "expected a string"

/-- Rust `i32::deserialize` on a JSON value (integer width is irrelevant to the
claims; no claim exercises overflow). -/
def intDecode : Decoder Int := fun j =>
  match j with
  | .num n => .ok n
  | _ => .error "expected an integer"

/-- Rust `Option::<T>::deserialize` as serde defines it for self-describing
formats: JSON `null` is `None`, anything else is `Some` of the inner
deserialization. -/
def optionDecode {α : Type} (d : Decoder α) : Decoder (Option α) := fun j =>
  match j with
  | .null => .ok none
  | j => (d j).map some

/-! ## `MaybeNull<T>` (src/utils/deserialization.rs lines 4-20) -/

/-- Rust `MaybeNull<T>`: a newtype over `Option<Option<T>>` whose field is
deserialized with `serde_with::rust::double_option::deserialize`. -/
structure MaybeNull (α : Type) where
  val : Option (Option α)

/-- Rust `MaybeNull<T>`'s derived `Deserialize`: the inner field uses
`double_option::deserialize`, which is `Option::<T>::deserialize` followed
by wrapping in `Some`.  Deserialization therefore always produces a
`MaybeNull` whose inner option is `Some`. -/
def MaybeNull.deserialize {α : Type} (d : Decoder α) : Decoder (MaybeNull α) := fun j =>
  (optionDecode d j).map (fun o => ⟨some o⟩)

/-- Rust `impl From<Option<T>> for MaybeNull<T>`: `MaybeNull(Some(value))`. -/
def MaybeNull.fromOption {α : Type} (v : Option α) : MaybeNull α :=
  ⟨some v⟩

/-- Rust `impl From<MaybeNull<T>> for Option<T>`: `value.0.unwrap()`.  The
`unwrap` panics when the inner option is `None`; the panic is modelled as
the `Except` error case. -/
def MaybeNull.intoOption {α : Type} (m : MaybeNull α) : Except String (Option α) :=
  match m.val with
  | some v => .ok v
  | none => .error "called unwrap on a None value"

/-! ## `MaybeAbsent<T>` (src/utils/deserialization.rs lines 22-59) -/

/-- Rust `MaybeAbsent<T>`: a newtype over `Option<T>` whose field is
deserialized with `deserialize_as_inner` (always `Some` of the inner
deserialization); `None` only ever arises from `Default`, i.e. from the
field's key being missing in a `#[serde(default)]` payload struct. -/
structure MaybeAbsent (α : Type) where
  val : Option α

/-- Rust `deserialize_as_inner`: `Ok(Some(T::deserialize(deserializer)?))`. -/
def MaybeAbsent.deserialize {α : Type} (d : Decoder α) : Decoder (MaybeAbsent α) := fun j =>
  (d j).map (fun v => ⟨some v⟩)

/-- Rust `impl Default for MaybeAbsent<T>`: `MaybeAbsent(None)` — the `Absent`
state. -/
def MaybeAbsent.default {α : Type} : MaybeAbsent α :=
  ⟨none⟩

/-- Rust `impl From<MaybeAbsent<T>> for Option<T>`: `value.0`. -/
def MaybeAbsent.toOption {α : Type} (m : MaybeAbsent α) : Option α :=
  m.val

/-- Rust `impl From<MaybeAbsent<MaybeNull<T>>> for Option<Option<T>>`:
`let optional_nullable: Option<MaybeNull<T>> = value.into();
optional_nullable.map(MaybeNull::into)` — the panicking `unwrap` inside
the map is threaded through `Except`. -/
def MaybeAbsent.toOptionOption {α : Type} (m : MaybeAbsent (MaybeNull α)) :
    Except String (Option (Option α)) :=
  match m.val with
  | none => .ok none
  | some mn => (mn.intoOption).map some

/-- One field of a `#[derive(Deserialize)] #[serde(default)]` payload
struct: a missing key yields the field type's `Default`
(`MaybeAbsent(None)`), a present key deserializes the field's value with
the field type's deserializer. -/
def fieldDecode {α : Type} (d : Decoder α) (fields : List (String × Json)) (key : String) :
    Except String (MaybeAbsent α) :=
  match fields.lookup key with
  | none => .ok MaybeAbsent.default
  | some j => MaybeAbsent.deserialize d j

/-! ## Pagination metadata (src/services/responses_dto.rs lines 11-29) -/

/-- The `Pagination` response struct: `total`, `page`, `pages`, `per_page`,
all `u32`. -/
structure Pagination where
  total : Nat
  page : Nat
  pages : Nat
  per_page : Nat
deriving DecidableEq

/-- Rust `Pagination::new`: `pages` is computed as
`total / per_page + total % per_page` (integer division plus remainder).
All arithmetic is on `u32`; for `per_page ≥ 1` the sum
`total / per_page + total % per_page ≤ total` so no wrapping can occur and
`Nat` arithmetic coincides with `u32` arithmetic (`per_page = 0` would
panic in Rust; every caller validates `per_page ≥ 1` first). -/
def Pagination.new (total page per_page : Nat) : Pagination :=
  { total := total
    page := page
    pages := total / per_page + total % per_page
    per_page := per_page }

/-- Ceiling division, written from the spec's words: the spec states
`pages = ceiling(total / per_page)`.  Declared only to compare against the
source's `Pagination.new`. -/
def specCeilingPages (total per_page : Nat) : Nat :=
  (total + per_page - 1) / per_page

/-! ## The sqlx error model -/

/-- The constraint information a `sqlx::Error::Database` value exposes:
the kind predicates `is_unique_violation` / `is_foreign_key_violation`
(driven by the Postgres error code, not the message) and the engine's
message text. -/
structure DbError where
  unique_violation : Bool
  foreign_key_violation : Bool
  message : String
deriving DecidableEq

/-- The `sqlx::Error` cases the handlers inspect: `RowNotFound` (from
`fetch_one` on an empty result set), `Database` (a constraint or other
engine error), and everything else collapsed into `Other`. -/
inductive SqlxError where
  | RowNotFound
  | Database (e : DbError)
  | Other (message : String)
deriving DecidableEq

/-- The display of a `sqlx::Error`, used when a handler wraps it into an
`anyhow` cause chain. -/
def SqlxError.describe : SqlxError → String
  | .RowNotFound => "no rows returned by a query that expected to return at least one row"
  | .Database e => e.message
  | .Other m => m

/-! ## `ServiceError` (src/services/service_error.rs) -/

/-- The closed domain-error taxonomy of `ServiceError`.  Each variant
carries the `String` payload the enum declares; `UnexpectedError` carries
its `anyhow::Error` cause, modelled as the cause's message chain. -/
inductive ServiceError where
  | DomainValidationError (msg : String)
  | ResourceNotFound (resource : String)
  | MissingQueryParamError (msg : String)
  | InvalidQueryParamValueError (msg : String)
  | InvalidUpdateError (msg : String)
  | InvalidCreateError (msg : String)
  | UnexpectedError (cause : String)
deriving DecidableEq

/-- The `thiserror` `Display` of each variant, from its `#[error(...)]`
attribute: payload-carrying variants display their message,
`ResourceNotFound` interpolates the resource kind, and `UnexpectedError`
displays the empty string — its cause never reaches the formatter. -/
def ServiceError.message : ServiceError → String
  | .DomainValidationError m => m
  | .ResourceNotFound r => "There is not any " ++ r ++ " with the given id"
  | .MissingQueryParamError m => m
  | .InvalidQueryParamValueError m => m
  | .InvalidUpdateError m => m
  | .InvalidCreateError m => m
  | .UnexpectedError _ => ""

/-- Rust `ResponseError::status_code`. -/
def ServiceError.status_code : ServiceError → Nat
  | .DomainValidationError _ => 400
  | .ResourceNotFound _ => 404
  | .MissingQueryParamError _ => 400
  | .InvalidQueryParamValueError _ => 422
  | .InvalidUpdateError _ => 400
  | .InvalidCreateError _ => 400
  | .UnexpectedError _ => 500

/-- An HTTP response as the claims observe it: status code plus serialized
JSON body. -/
structure HttpResponse where
  status : Nat
  body : String
deriving DecidableEq

/-- Modelled from the spec: `ErrorResponseDto` is declared only in
commented-out form in `responses_dto.rs`; the spec fixes the error body
shape as `\x7berror: string\x7d` with lower-camel-case field names, so
serializing it renders `\x7b"error": <message>\x7d`. -/
def errorBodyJson (msg : String) : String :=
  "\x7b\"error\":\"" ++ msg ++ "\"\x7d"

/-- Rust `ResponseError::error_response`: builds a response from
`self.status_code()` whose JSON body is `ErrorResponseDto` around
`format!("\x7b\x7d", self)`, i.e. the variant's `Display` message. -/
def ServiceError.error_response (e : ServiceError) : HttpResponse :=
  { status := e.status_code
    body := errorBodyJson e.message }

/-! ## The generic pagination types (src/utils/pagination.rs) -/

/-- Rust `Pages<T, P>`: the window descriptor built by `Paginable::paginate`;
only `per_page` is data (the rest of the struct is `PhantomData`). -/
structure Pages where
  per_page : Int

/-- Rust `Paginable::paginate(per_page)`. -/
def paginate (per_page : Int) : Pages :=
  { per_page := per_page }

/-- Rust `Page<T>`. -/
structure Page (α : Type) where
  per_page : Int
  page_no : Int
  items : List α

/-- Rust `LIMIT limit OFFSET offset` applied to a result set in the store's
enumeration order.  Callers reach this only after validating
`per_page ≥ 1` and `page_no ≥ 1`, so both parameters are non-negative
(Postgres rejects negative values; `Int.toNat` clamps them the same way
on the validated paths). -/
def limitOffset {α : Type} (limit offset : Int) (rows : List α) : List α :=
  (rows.drop offset.toNat).take limit.toNat

/-! ## The client resource (src/models/client.rs, src/services/clients.rs) -/

/-- A `clients` row. -/
structure Client where
  national_id : String
  full_name : String
  main_phone_no : String
  secondary_phone_no : String
  email : String
deriving DecidableEq

/-- Rust `Client::select`: `SELECT ... FROM clients WHERE national_id = $1`
through `fetch_one`, which is `RowNotFound` on an empty result set. -/
def Client.select (national_id : String) (table : List Client) : Except SqlxError Client :=
  match table.find? (fun c => c.national_id == national_id) with
  | some c => .ok c
  | none => .error .RowNotFound

/-- Rust `Paginable<Client>::get_page`: `SELECT ... FROM clients LIMIT $1
OFFSET $2` with `$1 = pages.per_page` and `$2 = (page_no - 1) *
pages.per_page`.  The statement has no `ORDER BY`, so the rows come back
in whatever order the store enumerates the table. -/
def Client.get_page (pages : Pages) (page_no : Int) (table : List Client) : Page Client :=
  { per_page := pages.per_page
    page_no := page_no
    items := limitOffset pages.per_page ((page_no - 1) * pages.per_page) table }

/-- Rust `UpdateClient`. -/
structure UpdateClient where
  national_id : Option String
  full_name : Option String
  main_phone_no : Option String
  secondary_phone_no : Option String
  email : Option String

/-- The field-resolution prefix of `UpdateClient::update`: each `new_*`
binding is `self.field.unwrap_or(target.field)`. -/
def UpdateClient.resolve (self : UpdateClient) (target : Client) : Client :=
  { national_id := self.national_id.getD target.national_id
    full_name := self.full_name.getD target.full_name
    main_phone_no := self.main_phone_no.getD target.main_phone_no
    secondary_phone_no := self.secondary_phone_no.getD target.secondary_phone_no
    email := self.email.getD target.email }

/-- The `UPDATE clients SET ... WHERE national_id = $6 RETURNING ...`
statement of `UpdateClient::update`, run through `fetch_one`: zero
updated rows is `RowNotFound`; moving the row onto an already-taken
primary key is a unique violation on `clients_pkey`; otherwise every
matching row is rewritten to the resolved record. -/
def UpdateClient.update (self : UpdateClient) (target : Client) (table : List Client) :
    Except SqlxError (Client × List Client) :=
  let new := self.resolve target
  if (table.find? (fun c => c.national_id == target.national_id)).isNone then
    .error .RowNotFound
  else if new.national_id != target.national_id
      && table.any (fun c => c.national_id == new.national_id) then
    .error (.Database { unique_violation := true, foreign_key_violation := false,
                        message := "duplicate key value violates unique constraint \"clients_pkey\"" })
  else
    .ok (new, table.map (fun c => if c.national_id == target.national_id then new else c))

/-- Rust `InsertClient`'s `INSERT INTO clients ... RETURNING ...`: a duplicate
primary key is a unique violation, otherwise the row is appended. -/
def InsertClient.insert (new : Client) (table : List Client) :
    Except SqlxError (Client × List Client) :=
  if table.any (fun c => c.national_id == new.national_id) then
    .error (.Database { unique_violation := true, foreign_key_violation := false,
                        message := "duplicate key value violates unique constraint \"clients_pkey\"" })
  else
    .ok (new, table ++ [new])

/-! ## The clients service handlers (src/services/clients.rs) -/

/-- Rust `PaginationParams` (src/services/pagination_params.rs): both query
parameters are independently optional `i64`s. -/
structure PaginationParams where
  per_page : Option Int
  page_no : Option Int

/-- Rust `CreateClientPayload`: all five fields required. -/
structure CreateClientPayload where
  national_id : String
  full_name : String
  main_phone_no : String
  secondary_phone_no : String
  email : String

/-- The `map_err` closure of `create_client`: a database error whose kind
is a unique violation becomes `InvalidCreateError` naming `nationalId`;
every other error becomes `UnexpectedError` carrying the `anyhow` context
chain around the original error. -/
def create_client_map_err (err : SqlxError) : ServiceError :=
  match err with
  | .Database db =>
    if db.unique_violation then
      .InvalidCreateError "The specified nationalId already exists"
    else
      .UnexpectedError ("Failed to create the client from the database: " ++ err.describe)
  | _ => .UnexpectedError ("Failed to create the client from the database: " ++ err.describe)

/-- Rust `create_client`: build `InsertClient` from the payload, insert, map
the error.  Returns the response and the successor table (unchanged when
the insert fails). -/
def create_client (payload : CreateClientPayload) (table : List Client) :
    Except ServiceError Client × List Client :=
  match InsertClient.insert
      { national_id := payload.national_id
        full_name := payload.full_name
        main_phone_no := payload.main_phone_no
        secondary_phone_no := payload.secondary_phone_no
        email := payload.email } table with
  | .ok (c, table2) => (.ok c, table2)
  | .error e => (.error (create_client_map_err e), table)

/-- A `GET /clients/` response: paginated envelope or the plain list. -/
inductive ClientsListResponse where
  | paginated (data : List Client) (pagination : Pagination)
  | all (data : List Client)

/-- Rust `fetch_clients`: the missing-parameter checks, the positivity checks,
then either the paginated fetch (page via `Client::paginate(per_page)
.get_page(page_no)`, total via `Client::count`, metadata via
`Pagination::new`) or `Client::select_all`.  `Client::count` is
`SELECT COUNT(*) FROM clients`, i.e. the table's length. -/
def fetch_clients (params : PaginationParams) (table : List Client) :
    Except ServiceError ClientsListResponse :=
  if params.per_page.isSome && params.page_no.isNone then
    .error (.MissingQueryParamError "Missing query param page-no")
  else if params.per_page.isNone && params.page_no.isSome then
    .error (.MissingQueryParamError "Missing query param per-page")
  else
    match params.per_page, params.page_no with
    | some per_page, some page_no =>
      if page_no ≤ 0 then
        .error (.InvalidQueryParamValueError "Query param page-no must be greater than 0")
      else if per_page ≤ 0 then
        .error (.InvalidQueryParamValueError "Query param per-page must be greater than 0")
      else
        let page := Client.get_page (paginate per_page) page_no table
        let total : Int := Int.ofNat table.length
        .ok (.paginated page.items (Pagination.new total.toNat page_no.toNat per_page.toNat))
    | _, _ => .ok (.all table)

/-- Rust `UpdateClientPartiallyPayload`: every field a `MaybeAbsent<String>`,
defaulting to `Absent` when the key is missing. -/
structure UpdateClientPartiallyPayload where
  national_id : MaybeAbsent String
  full_name : MaybeAbsent String
  main_phone_no : MaybeAbsent String
  secondary_phone_no : MaybeAbsent String
  email : MaybeAbsent String

/-- The `map_err` closure shared by both client update handlers: a unique
violation becomes `InvalidUpdateError` naming `nationalId`, anything else
`UnexpectedError`. -/
def update_client_map_err (err : SqlxError) : ServiceError :=
  match err with
  | .Database db =>
    if db.unique_violation then
      .InvalidUpdateError "The specified nationalId already exists"
    else
      .UnexpectedError ("Failed to update the client from the database: " ++ err.describe)
  | _ => .UnexpectedError ("Failed to update the client from the database: " ++ err.describe)

/-- Rust `update_client_partially`: fetch the target (`RowNotFound` becomes
`ResourceNotFound "client"`, before any write), convert each payload field
with `From<MaybeAbsent<String>> for Option<String>`, run
`UpdateClient::update`, map its error. -/
def update_client_partially (params_national_id : String)
    (payload : UpdateClientPartiallyPayload) (table : List Client) :
    Except ServiceError Client × List Client :=
  match Client.select params_national_id table with
  | .error .RowNotFound => (.error (.ResourceNotFound "client"), table)
  | .error e =>
    (.error (.UnexpectedError
      ("Failed to fetch the client to update from the database: " ++ e.describe)), table)
  | .ok target =>
    match UpdateClient.update
        { national_id := payload.national_id.toOption
          full_name := payload.full_name.toOption
          main_phone_no := payload.main_phone_no.toOption
          secondary_phone_no := payload.secondary_phone_no.toOption
          email := payload.email.toOption } target table with
    | .ok (c, table2) => (.ok c, table2)
    | .error e => (.error (update_client_map_err e), table)

/-- Rust `UpdateClientCompletelyPayload`: all five fields required. -/
structure UpdateClientCompletelyPayload where
  national_id : String
  full_name : String
  main_phone_no : String
  secondary_phone_no : String
  email : String

/-- Rust `update_client_completely`: fetch the target (`RowNotFound` becomes
`ResourceNotFound "client"`, before any write), wrap every payload field
in `Some`, run `UpdateClient::update`, map its error. -/
def update_client_completely (params_national_id : String)
    (payload : UpdateClientCompletelyPayload) (table : List Client) :
    Except ServiceError Client × List Client :=
  match Client.select params_national_id table with
  | .error .RowNotFound => (.error (.ResourceNotFound "client"), table)
  | .error e =>
    (.error (.UnexpectedError
      ("Failed to fetch the client to update from the database: " ++ e.describe)), table)
  | .ok target =>
    match UpdateClient.update
        { national_id := some payload.national_id
          full_name := some payload.full_name
          main_phone_no := some payload.main_phone_no
          secondary_phone_no := some payload.secondary_phone_no
          email := some payload.email } target table with
    | .ok (c, table2) => (.ok c, table2)
    | .error e => (.error (update_client_map_err e), table)

/-! ## The dealership resource (src/models/dealership.rs,
src/services/dealerships.rs) -/

/-- A `dealerships` row; `manager_national_id` is the one nullable
column. -/
structure Dealership where
  rif : String
  name : String
  city_number : Int
  state_id : Int
  manager_national_id : Option String
deriving DecidableEq

/-- Rust `Paginable<Dealership>::get_page`: `SELECT ... FROM dealerships LIMIT
$1 OFFSET $2`, again with no `ORDER BY`. -/
def Dealership.get_page (pages : Pages) (page_no : Int) (table : List Dealership) :
    Page Dealership :=
  { per_page := pages.per_page
    page_no := page_no
    items := limitOffset pages.per_page ((page_no - 1) * pages.per_page) table }

/-- Rust `UpdateDealership`: every field a flat `Option`, including the
nullable `manager_national_id`, which is `Option<String>` — not
`Option<Option<String>>`. -/
structure UpdateDealership where
  rif : Option String
  name : Option String
  city_number : Option Int
  state_id : Option Int
  manager_national_id : Option String

/-- The field-resolution prefix of `UpdateDealership::update`: the four
non-nullable fields are `self.field.unwrap_or(target.field)`;
`manager_national_id` is `if self.manager_national_id.is_some() \x7b self \x7d
else \x7b target \x7d` — there is no representation that clears it. -/
def UpdateDealership.resolve (self : UpdateDealership) (target : Dealership) : Dealership :=
  { rif := self.rif.getD target.rif
    name := self.name.getD target.name
    city_number := self.city_number.getD target.city_number
    state_id := self.state_id.getD target.state_id
    manager_national_id :=
      if self.manager_national_id.isSome then self.manager_national_id
      else target.manager_national_id }

/-- Rust `UpdateDealershipPartiallyPayload`
(src/services/dealerships.rs lines 192-202): every field, the nullable
`managerNationalId` included, is a flat `MaybeAbsent<T>` — not
`MaybeAbsent<MaybeNull<T>>`. -/
structure UpdateDealershipPartiallyPayload where
  rif : MaybeAbsent String
  name : MaybeAbsent String
  city_number : MaybeAbsent Int
  state_id : MaybeAbsent Int
  manager_national_id : MaybeAbsent String

/-- The camelCase keys `UpdateDealershipPartiallyPayload` accepts. -/
def dealershipPartialKeys : List String :=
  ["rif", "name", "cityNumber", "stateId", "managerNationalId"]

/-- Whether an association list repeats a key (serde's derived
deserializer rejects duplicate fields). -/
def hasDupKeys : List (String × Json) → Bool
  | [] => false
  | (k, _) :: rest => rest.any (fun kv => kv.fst == k) || hasDupKeys rest

/-- The derived `Deserialize` of `UpdateDealershipPartiallyPayload` on a
JSON object: `deny_unknown_fields` rejects unrecognized keys, duplicate
keys are errors, each declared field decodes per `MaybeAbsent` with the
struct-level `#[serde(default)]` covering missing keys. -/
def decodeUpdateDealershipPartially (fields : List (String × Json)) :
    Except String UpdateDealershipPartiallyPayload :=
  if hasDupKeys fields then
    .error "duplicate field"
  else if fields.any (fun kv => !(dealershipPartialKeys.contains kv.fst)) then
    .error "unknown field"
  else do
    let rif ← fieldDecode strDecode fields "rif"
    let name ← fieldDecode strDecode fields "name"
    let city_number ← fieldDecode intDecode fields "cityNumber"
    let state_id ← fieldDecode intDecode fields "stateId"
    let manager_national_id ← fieldDecode strDecode fields "managerNationalId"
    .ok { rif := rif, name := name, city_number := city_number,
          state_id := state_id, manager_national_id := manager_national_id }

/-! ## The vehicle resource (src/models/vehicle.rs) -/

/-- A `vehicles` row; `additional_info` and `maintenance_summary` are the
nullable columns.  `time::Date` is modelled as an integer date ordinal —
no claim inspects its structure. -/
structure Vehicle where
  plate : String
  brand : String
  model_id : Int
  serial_no : String
  engine_serial_no : String
  color : String
  purchase_date : Int
  additional_info : Option String
  maintenance_summary : Option String
  owner_national_id : String
deriving DecidableEq

/-- Rust `UpdateVehicle`: the two nullable columns are
`Option<Option<String>>`, preserving the tri-state distinction. -/
structure UpdateVehicle where
  plate : Option String
  brand : Option String
  model_id : Option Int
  serial_no : Option String
  engine_serial_no : Option String
  color : Option String
  purchase_date : Option Int
  additional_info : Option (Option String)
  maintenance_summary : Option (Option String)
  owner_national_id : Option String

/-- The field-resolution prefix of `UpdateVehicle::update`: every `new_*`
binding is `self.field.unwrap_or(target.field)`; for the nullable columns
this maps `Some(None)` (explicit null) to `None` and `None` (absent) to
the target's value. -/
def UpdateVehicle.resolve (self : UpdateVehicle) (target : Vehicle) : Vehicle :=
  { plate := self.plate.getD target.plate
    brand := self.brand.getD target.brand
    model_id := self.model_id.getD target.model_id
    serial_no := self.serial_no.getD target.serial_no
    engine_serial_no := self.engine_serial_no.getD target.engine_serial_no
    color := self.color.getD target.color
    purchase_date := self.purchase_date.getD target.purchase_date
    additional_info := self.additional_info.getD target.additional_info
    maintenance_summary := self.maintenance_summary.getD target.maintenance_summary
    owner_national_id := self.owner_national_id.getD target.owner_national_id }

/-! ## The employee resource (src/models/employee.rs,
src/services/staff.rs) -/

/-- A `staff` row.  `BigDecimal` is modelled as a rational. -/
structure Employee where
  national_id : String
  full_name : String
  main_phone_no : String
  secondary_phone_no : String
  email : String
  address : String
  role_id : Int
  salary : Rat
deriving DecidableEq

/-- Rust `UpdateEmployee`. -/
structure UpdateEmployee where
  national_id : Option String
  full_name : Option String
  main_phone_no : Option String
  secondary_phone_no : Option String
  email : Option String
  address : Option String
  role_id : Option Int
  salary : Option Rat

/-- The field-resolution prefix of `UpdateEmployee::update`: each `new_*`
binding is `self.field.unwrap_or(target.field)`. -/
def UpdateEmployee.resolve (self : UpdateEmployee) (target : Employee) : Employee :=
  { national_id := self.national_id.getD target.national_id
    full_name := self.full_name.getD target.full_name
    main_phone_no := self.main_phone_no.getD target.main_phone_no
    secondary_phone_no := self.secondary_phone_no.getD target.secondary_phone_no
    email := self.email.getD target.email
    address := self.address.getD target.address
    role_id := self.role_id.getD target.role_id
    salary := self.salary.getD target.salary }

/-- The `map_err` closure of `create_employee` (src/services/staff.rs):
unique violations become `InvalidCreateError` naming `nationalId`,
foreign-key violations become `InvalidCreateError` naming the referenced
fields, everything else `UnexpectedError`.  Both guards test the
database error's kind predicate, never its message text. -/
def create_employee_map_err (err : SqlxError) : ServiceError :=
  match err with
  | .Database db =>
    if db.unique_violation then
      .InvalidCreateError "The specified nationalId already exists"
    else if db.foreign_key_violation then
      .InvalidCreateError
        "The specified roleId, employerDealershipRif or helpedDealershipRif does not exist"
    else
      .UnexpectedError ("Failed to insert the employee into the database: " ++ err.describe)
  | _ => .UnexpectedError ("Failed to insert the employee into the database: " ++ err.describe)

/-! ## Remaining definitions used by the theorems -/

/-- Whether a JSON value is the literal `null`. -/
def jsonIsNull : Json → Bool
  | .null => true
  | _ => false

/-- The `MaybeNull<T>` values obtainable through the type's public
interface: `From<Option<T>>`, or a successful run of its derived
`Deserialize` (the field is private, so no other construction exists
outside the module). -/
inductive MaybeNull.Obtainable {α : Type} : MaybeNull α → Prop where
  | fromOption (v : Option α) : MaybeNull.Obtainable (MaybeNull.fromOption v)
  | deserialized (d : Decoder α) (j : Json) (m : MaybeNull α)
      (h : MaybeNull.deserialize d j = .ok m) : MaybeNull.Obtainable m

/-! ## The claims -/

/-- C1: the spec states that `Pagination::new` computes
`pages = ceiling(total / per_page)`, with `pages = 3` for `total = 25`,
`per_page = 10`.  The source computes
`pages = total / per_page + total % per_page`, which at that input is
`2 + 5 = 7`, not `3`; the spec itself flags this formula as a bug in the
source (code_bug: the ceiling is the intent, the remainder-sum a slip). -/
theorem c1_pagination_pages_not_ceiling :
    Pagination.new 25 2 10 = { total := 25, page := 2, pages := 7, per_page := 10 }
    ∧ specCeilingPages 25 10 = 3
    ∧ (Pagination.new 25 2 10).pages ≠ specCeilingPages 25 10 := by
  refine ⟨rfl, rfl, ?_⟩
  decide

/-- C2 (counterexample): the claim says every nullable field of every
resource is cleared by an explicitly-`Null` partial-update payload.  The
dealership's nullable `manager_national_id` refutes it: the partial
payload carries it as a flat `MaybeAbsent<String>`, so a payload whose
`managerNationalId` key holds JSON `null` is rejected at deserialization,
and the resolver of `UpdateDealership::update` keeps the target's prior
value whenever the payload field is `None` — no payload value clears it.
Both facts at a concrete record whose manager is `"V-1"`. -/
theorem c2_dealership_null_counterexample :
    decodeUpdateDealershipPartially [("managerNationalId", Json.null)]
      = .error "expected a string"
    ∧ (UpdateDealership.resolve ⟨none, none, none, none, none⟩
        ⟨"J-1", "Dealer", 1, 1, some "V-1"⟩).manager_national_id = some "V-1" := by
  exact ⟨rfl, rfl⟩

/-- C2 (amended): for the nullable fields whose partial-update payload
preserves the tri-state distinction — the vehicle's `additional_info` and
`maintenance_summary`, carried as `Option<Option<String>>` — an
explicitly-`Null` field (`Some(None)`) resolves to the empty value
regardless of the target record's prior value and of every other payload
field.  (The dealership's nullable `manager_national_id` is excluded: its
payload shape cannot express `Null`, per the counterexample.) -/
theorem c2_vehicle_null_clears_nullable_fields :
    ∀ (r : Vehicle) (p1 p2 p4 p5 p6 po : Option String) (pm pd : Option Int)
      (ai ms : Option (Option String)),
      ((UpdateVehicle.mk p1 p2 pm p4 p5 p6 pd (some none) ms po).resolve r).additional_info
        = none
    ∧ ((UpdateVehicle.mk p1 p2 pm p4 p5 p6 pd ai (some none) po).resolve r).maintenance_summary
        = none := by
  intros
  exact ⟨rfl, rfl⟩

/-- C3: the resolution step of `UpdateClient::update` and
`UpdateEmployee::update` leaves every field that is absent (`None`) in the
payload exactly equal to the target record's value of that field,
whatever the other payload fields hold. -/
theorem c3_resolve_absent_preserves :
    ∀ (c : Client) (e : Employee)
      (a b d f : Option String)
      (g h1 h2 h3 h4 h5 : Option String) (ri : Option Int) (sa : Option Rat),
      ((UpdateClient.mk none a b d f).resolve c).national_id = c.national_id
    ∧ ((UpdateClient.mk a none b d f).resolve c).full_name = c.full_name
    ∧ ((UpdateClient.mk a b none d f).resolve c).main_phone_no = c.main_phone_no
    ∧ ((UpdateClient.mk a b d none f).resolve c).secondary_phone_no = c.secondary_phone_no
    ∧ ((UpdateClient.mk a b d f none).resolve c).email = c.email
    ∧ ((UpdateEmployee.mk none g h1 h2 h3 h4 ri sa).resolve e).national_id = e.national_id
    ∧ ((UpdateEmployee.mk g none h1 h2 h3 h4 ri sa).resolve e).full_name = e.full_name
    ∧ ((UpdateEmployee.mk g h1 none h2 h3 h4 ri sa).resolve e).main_phone_no = e.main_phone_no
    ∧ ((UpdateEmployee.mk g h1 h2 none h3 h4 ri sa).resolve e).secondary_phone_no
        = e.secondary_phone_no
    ∧ ((UpdateEmployee.mk g h1 h2 h3 none h4 ri sa).resolve e).email = e.email
    ∧ ((UpdateEmployee.mk g h1 h2 h3 h4 none ri sa).resolve e).address = e.address
    ∧ ((UpdateEmployee.mk g h1 h2 h3 h4 h5 none sa).resolve e).role_id = e.role_id
    ∧ ((UpdateEmployee.mk g h1 h2 h3 h4 h5 ri none).resolve e).salary = e.salary := by
  intros
  exact ⟨rfl, rfl, rfl, rfl, rfl, rfl, rfl, rfl, rfl, rfl, rfl, rfl, rfl⟩

/-- C4: a payload field of type `MaybeAbsent<MaybeNull<T>>` deserializes
to `Absent` when its key is missing, to the explicit-`Null` state when the
key holds JSON `null`, and to `Present(v)` when the key holds a non-null
value decoding to `v`; the conversion to `Option<Option<T>>` renders the
three states as `None`, `Some(None)` and `Some(Some(v))` respectively. -/
theorem c4_tristate_field_deserialization :
    ∀ {α : Type} (d : Decoder α) (fields : List (String × Json)) (key : String),
      (fields.lookup key = none →
        fieldDecode (MaybeNull.deserialize d) fields key = .ok ⟨none⟩
        ∧ MaybeAbsent.toOptionOption (⟨none⟩ : MaybeAbsent (MaybeNull α)) = .ok none)
    ∧ (fields.lookup key = some .null →
        fieldDecode (MaybeNull.deserialize d) fields key = .ok ⟨some ⟨some none⟩⟩
        ∧ MaybeAbsent.toOptionOption (⟨some ⟨some none⟩⟩ : MaybeAbsent (MaybeNull α))
            = .ok (some none))
    ∧ (∀ (j : Json) (v : α),
        fields.lookup key = some j → jsonIsNull j = false → d j = .ok v →
        fieldDecode (MaybeNull.deserialize d) fields key = .ok ⟨some ⟨some (some v)⟩⟩
        ∧ MaybeAbsent.toOptionOption (⟨some ⟨some (some v)⟩⟩ : MaybeAbsent (MaybeNull α))
            = .ok (some (some v))) := by
  intro α d fields key
  refine ⟨?_, ?_, ?_⟩
  · intro h
    refine ⟨?_, rfl⟩
    unfold fieldDecode
    rw [h]
    rfl
  · intro h
    refine ⟨?_, rfl⟩
    unfold fieldDecode
    rw [h]
    rfl
  · intro j v hl hnull hd
    refine ⟨?_, rfl⟩
    have hopt : optionDecode d j = (d j).map some := by
      cases j with
      | null => simp [jsonIsNull] at hnull
      | bool b => rfl
      | num n => rfl
      | str s => rfl
      | arr items => rfl
      | obj fs => rfl
    have hfd : fieldDecode (MaybeNull.deserialize d) fields key
        = MaybeAbsent.deserialize (MaybeNull.deserialize d) j := by
      unfold fieldDecode
      rw [hl]
    rw [hfd]
    unfold MaybeAbsent.deserialize MaybeNull.deserialize
    rw [hopt, hd]
    rfl

/-- C4 (witness): the three states at concrete inputs, via
`c4_tristate_field_deserialization` with the string decoder. -/
theorem c4_tristate_field_deserialization_witness :
    (fieldDecode (MaybeNull.deserialize strDecode) [] "email"
        = .ok ⟨none⟩
      ∧ MaybeAbsent.toOptionOption (⟨none⟩ : MaybeAbsent (MaybeNull String)) = .ok none)
    ∧ (fieldDecode (MaybeNull.deserialize strDecode) [("email", Json.null)] "email"
        = .ok ⟨some ⟨some none⟩⟩
      ∧ MaybeAbsent.toOptionOption (⟨some ⟨some none⟩⟩ : MaybeAbsent (MaybeNull String))
        = .ok (some none))
    ∧ (fieldDecode (MaybeNull.deserialize strDecode) [("email", Json.str "a@b.c")] "email"
        = .ok ⟨some ⟨some (some "a@b.c")⟩⟩
      ∧ MaybeAbsent.toOptionOption
          (⟨some ⟨some (some "a@b.c")⟩⟩ : MaybeAbsent (MaybeNull String))
        = .ok (some (some "a@b.c"))) := by
  refine ⟨(c4_tristate_field_deserialization strDecode [] "email").1 rfl,
    (c4_tristate_field_deserialization strDecode [("email", Json.null)] "email").2.1 rfl,
    (c4_tristate_field_deserialization strDecode [("email", Json.str "a@b.c")] "email").2.2
      (Json.str "a@b.c") "a@b.c" rfl rfl rfl⟩

/-- C5: the claim says `get_page` draws at most `per_page` rows from
offset `(page_no - 1) * per_page` onward "in a stable order determined by
the resource (primary key order)".  The window arithmetic is as claimed,
but neither `get_page` query issues an `ORDER BY`, so the rows come back
in the store's physical enumeration order, not primary-key order: on a
clients table enumerated `[national_id = "B", national_id = "A"]`, the
first page of two is `["B", "A"]`, which is not sorted by the key
(code_bug: the spec calls unordered pagination a correctness bug; the
source omits the ordering clause). -/
theorem c5_get_page_unordered_failing_input :
    ((Client.get_page (paginate 2) 1
        [⟨"B", "b", "1", "2", "b@x"⟩, ⟨"A", "a", "1", "2", "a@x"⟩]).items.map
          Client.national_id = ["B", "A"])
    ∧ (["B", "A"] : List String) ≠ ["A", "B"]
    ∧ ((Dealership.get_page (paginate 2) 1
        [⟨"B", "b", 1, 1, none⟩, ⟨"A", "a", 1, 1, none⟩]).items.map
          Dealership.rif = ["B", "A"]) := by
  refine ⟨rfl, ?_, rfl⟩
  decide

/-- C6: a create whose insert fails with a uniqueness violation is
classified as `InvalidCreateError` naming the conflicting identifier
(`nationalId`), never `UnexpectedError`; the classification tests the
database error's kind flag, so it is the same for every message text, and
the full `create_client` operation on a table already holding the payload
key returns that error and leaves the table unchanged. -/
theorem c6_unique_violation_invalid_create :
    ∀ (fk : Bool) (msg : String)
      (nid fn mp sp em f2 m2 s2 e2 : String) (rest : List Client),
      create_client_map_err (.Database ⟨true, fk, msg⟩)
        = .InvalidCreateError "The specified nationalId already exists"
    ∧ create_employee_map_err (.Database ⟨true, fk, msg⟩)
        = .InvalidCreateError "The specified nationalId already exists"
    ∧ create_client ⟨nid, fn, mp, sp, em⟩ (⟨nid, f2, m2, s2, e2⟩ :: rest)
        = (.error (.InvalidCreateError "The specified nationalId already exists"),
           ⟨nid, f2, m2, s2, e2⟩ :: rest) := by
  intros
  refine ⟨rfl, rfl, ?_⟩
  simp [create_client, InsertClient.insert, create_client_map_err]

/-- C7: both update handlers fetch the target record first; when no record
matches the key, they return `ResourceNotFound "client"` and the table is
returned unchanged — the `UPDATE` statement is never reached. -/
theorem c7_update_missing_resource_not_found :
    ∀ (pp : UpdateClientPartiallyPayload) (cp : UpdateClientCompletelyPayload)
      (nid : String) (table : List Client),
      table.find? (fun c => c.national_id == nid) = none →
      update_client_partially nid pp table = (.error (.ResourceNotFound "client"), table)
    ∧ update_client_completely nid cp table = (.error (.ResourceNotFound "client"), table) := by
  intro pp cp nid table h
  constructor
  · simp [update_client_partially, Client.select, h]
  · simp [update_client_completely, Client.select, h]

/-- C7 (witness): a one-row table with key `"A"` and an update aimed at
the absent key `"X"`, through `c7_update_missing_resource_not_found`. -/
theorem c7_update_missing_resource_not_found_witness :
    ([⟨"A", "a", "1", "2", "a@x"⟩] : List Client).find?
        (fun c => c.national_id == "X") = none
    ∧ update_client_partially "X" ⟨⟨none⟩, ⟨none⟩, ⟨none⟩, ⟨none⟩, ⟨none⟩⟩
        [⟨"A", "a", "1", "2", "a@x"⟩]
        = (.error (.ResourceNotFound "client"), [⟨"A", "a", "1", "2", "a@x"⟩])
    ∧ update_client_completely "X" ⟨"N", "F", "M", "S", "E"⟩
        [⟨"A", "a", "1", "2", "a@x"⟩]
        = (.error (.ResourceNotFound "client"), [⟨"A", "a", "1", "2", "a@x"⟩]) := by
  have h : ([⟨"A", "a", "1", "2", "a@x"⟩] : List Client).find?
      (fun c => c.national_id == "X") = none := rfl
  exact ⟨h,
    (c7_update_missing_resource_not_found ⟨⟨none⟩, ⟨none⟩, ⟨none⟩, ⟨none⟩, ⟨none⟩⟩
      ⟨"N", "F", "M", "S", "E"⟩ "X" [⟨"A", "a", "1", "2", "a@x"⟩] h).1,
    (c7_update_missing_resource_not_found ⟨⟨none⟩, ⟨none⟩, ⟨none⟩, ⟨none⟩, ⟨none⟩⟩
      ⟨"N", "F", "M", "S", "E"⟩ "X" [⟨"A", "a", "1", "2", "a@x"⟩] h).2⟩

/-- C8: when exactly one of the two pagination parameters is supplied,
`fetch_clients` returns `MissingQueryParamError` naming the absent
parameter — for every table, so no page (and no default) is involved. -/
theorem c8_missing_pagination_param :
    ∀ (pp pn : Int) (table : List Client),
      fetch_clients ⟨some pp, none⟩ table
        = .error (.MissingQueryParamError "Missing query param page-no")
    ∧ fetch_clients ⟨none, some pn⟩ table
        = .error (.MissingQueryParamError "Missing query param per-page") := by
  intros
  exact ⟨rfl, rfl⟩

/-- C9: `UnexpectedError`'s `#[error("")]` display discards its wrapped
cause, so any two `UnexpectedError` values render to the identical
`\x7b"error": ""\x7d` body with status 500 — the internal cause never
reaches the caller. -/
theorem c9_unexpected_error_opaque :
    ∀ (cause1 cause2 : String),
      ServiceError.error_response (.UnexpectedError cause1)
        = ServiceError.error_response (.UnexpectedError cause2)
    ∧ (ServiceError.error_response (.UnexpectedError cause1)).status = 500
    ∧ (ServiceError.error_response (.UnexpectedError cause1)).body = errorBodyJson "" := by
  intros
  exact ⟨rfl, rfl, rfl⟩

/-- C10: every `MaybeNull<T>` obtainable through the public interface
(deserialization or `From<Option<T>>`) has its inner `Option` in the
`Some` state, so `From<MaybeNull<T>> for Option<T>` — which `unwrap`s that
inner option — always succeeds and never panics. -/
theorem c10_obtainable_maybe_null_unwrap_safe :
    ∀ {α : Type} (m : MaybeNull α), MaybeNull.Obtainable m →
      ∃ v : Option α, m.intoOption = .ok v := by
  intro α m hm
  match hm with
  | .fromOption v => exact ⟨v, rfl⟩
  | .deserialized d j m h =>
    cases hopt : optionDecode d j with
    | ok o =>
      have hm2 : MaybeNull.mk (some o) = m := by
        have h2 := h
        unfold MaybeNull.deserialize at h2
        rw [hopt] at h2
        exact Except.ok.inj h2
      exact ⟨o, by rw [← hm2]; rfl⟩
    | error e =>
      have h2 := h
      unfold MaybeNull.deserialize at h2
      rw [hopt] at h2
      exact absurd h2 (by simp [Except.map])

/-- C10 (witness): the `From<Option<T>>` construction at `Some("x")`,
through `c10_obtainable_maybe_null_unwrap_safe`. -/
theorem c10_obtainable_maybe_null_unwrap_safe_witness :
    MaybeNull.Obtainable (MaybeNull.fromOption (some "x"))
    ∧ ∃ v : Option String, (MaybeNull.fromOption (some "x")).intoOption = .ok v := by
  exact ⟨MaybeNull.Obtainable.fromOption (some "x"),
    c10_obtainable_maybe_null_unwrap_safe (MaybeNull.fromOption (some "x"))
      (MaybeNull.Obtainable.fromOption (some "x"))⟩
